import Mathlib

/-!
Shallow embedding of the sensu/nginx-check core (package `nginx`):
the status-page fetcher (`loadData`, `GetMetrics`) and the parser
(`extractMetrics` with its helpers `addNewMetric`, `addNewCounterMetric`,
`addNewGaugeMetric`, the three anchored line patterns and the static
`metricHelp` descriptor table).

Modelling conventions:
- a payload is a `List Char` (the raw HTTP body bytes, read as text);
- `bufio.Scanner` line splitting + `strings.TrimSpace` become `splitNL`
  and `trim` below;
- the three anchored regular expressions are encoded as deterministic
  matchers; since the digit class and the whitespace class are disjoint
  and the literals start with non-class characters, maximal-munch spans
  give exactly the regex decomposition;
- `strconv.ParseUint(s, 10, 64)` becomes `goParseUint64`, failing with
  the range error for values of 2^64 and above (inside `extractMetrics`
  every parsed capture is a nonempty digit string, so the syntax-error
  branch is unreachable there);
- Go `float64(value)` on a uint64 becomes `float64ofUint64`, IEEE-754
  binary64 round-to-nearest, ties-to-even, expressed on `Nat` (every
  uint64 rounds to an integral double, so the result is again a `Nat`);
- the injectable time source (`nowFn`, overridable in tests) becomes the
  explicit `nowMS` parameter, captured once per invocation;
- the HTTP client inside `loadData` is abstracted as the outcome it
  delivers: either a transport error or a response carrying a status
  code and a (possibly failing) body read.
-/

/-- Go `unicode.IsSpace` (the White_Space property), used by
`strings.TrimSpace`. -/
def goIsSpace (c : Char) : Bool :=
  c = ' ' || c = '\t' || c = '\n' || c = '\r' || c = '\x0b' || c = '\x0c' ||
  c = '\x85' || c = '\xa0' || c = ' ' || (' ' ≤ c && c ≤ ' ') ||
  c = ' ' || c = ' ' || c = ' ' || c = ' ' || c = '　'

/-- The RE2 character class `\s`, i.e. `[\t\n\f\r ]`. -/
def reSpace (c : Char) : Bool :=
  c = '\t' || c = '\n' || c = '\x0c' || c = '\r' || c = ' '

/-- Left trim: drop leading characters satisfying `goIsSpace`. -/
def trimL (l : List Char) : List Char := l.dropWhile goIsSpace

/-- Go `strings.TrimSpace`: drop leading and trailing white space. -/
def trim (l : List Char) : List Char := trimL ((trimL l.reverse).reverse)

/-- The raw newline decomposition of a payload: split on every `\n`,
with no length bound. This is the text's own line structure; the
scanner's cap is applied on top of it by `scanLines`. (The scanner's
`\r` stripping is subsumed by `trim`, and its suppression of a final
empty segment by the blank line filter.) -/
def splitNL : List Char → List (List Char)
  | [] => [[]]
  | c :: cs =>
    if c = '\n' then [] :: splitNL cs
    else
      match splitNL cs with
      | [] => [[c]]
      | l :: ls => (c :: l) :: ls

/-- `bufio.MaxScanTokenSize`, the default maximum token size of a
`bufio.Scanner` (64 KiB). -/
def MaxScanTokenSize : Nat := 65536

/-- UTF-8 byte length of a line (the payload is Go `[]byte`; the cap is
measured in bytes). -/
def utf8Len (l : List Char) : Nat := (l.map Char.utf8Size).sum

/-- The `bufio.Scanner` line sequence with its default buffer: the raw
lines up to but excluding the first line of `MaxScanTokenSize` bytes or
more. At such a line `Scan` fails unrecoverably with `ErrTooLong`
(which the source never checks, as `scanner.Err()` is ignored), so that
line and every later one are never produced. A line of at most 65535
bytes always fits: its newline arrives within the 65536-byte buffer. -/
def scanLines (content : List Char) : List (List Char) :=
  (splitNL content).takeWhile (fun l => utf8Len l < MaxScanTokenSize)

/-- The scanner loop of `extractMetrics`: trim every scanned line and
keep the non-blank ones. -/
def nonBlankLines (content : List Char) : List (List Char) :=
  ((scanLines content).map trim).filter (fun l => !l.isEmpty)

/-- The non-blank lines of the raw text with no scanner cap: what the
payload contains textually. Used to state the uncapped readings some
claims quantify over, for comparison with the program's capped view. -/
def rawNonBlankLines (content : List Char) : List (List Char) :=
  ((splitNL content).map trim).filter (fun l => !l.isEmpty)

/-- Match a literal against a prefix of the input; on success return the
rest of the input. -/
def dropLit : List Char → List Char → Option (List Char)
  | [], r => some r
  | _, [] => none
  | a :: as, b :: bs => if a = b then dropLit as bs else none

/-- The anchored pattern of line 1, `^Active connections: (\d+)$`,
returning the digit capture. -/
def line1Match (l : List Char) : Option (List Char) :=
  match dropLit "Active connections: ".data l with
  | none => none
  | some r => if r ≠ [] ∧ r.all Char.isDigit = true then some r else none

/-- The anchored pattern of line 3, `^(\d+)\s+(\d+)\s+(\d+)$`, returning
the three digit captures. -/
def line3Match (l : List Char) : Option (List Char × List Char × List Char) :=
  let a := l.takeWhile Char.isDigit
  let r1 := l.dropWhile Char.isDigit
  let s1 := r1.takeWhile reSpace
  let r2 := r1.dropWhile reSpace
  let b := r2.takeWhile Char.isDigit
  let r3 := r2.dropWhile Char.isDigit
  let s2 := r3.takeWhile reSpace
  let r4 := r3.dropWhile reSpace
  let c := r4.takeWhile Char.isDigit
  let r5 := r4.dropWhile Char.isDigit
  if a ≠ [] ∧ s1 ≠ [] ∧ b ≠ [] ∧ s2 ≠ [] ∧ c ≠ [] ∧ r5 = [] then some (a, b, c)
  else none

/-- The anchored pattern of line 4,
`^Reading:\s+(\d+)\s+Writing:\s+(\d+)\s+Waiting:\s+(\d+)$`, returning
the three digit captures. -/
def line4Match (l : List Char) : Option (List Char × List Char × List Char) :=
  match dropLit "Reading:".data l with
  | none => none
  | some r0 =>
    let s1 := r0.takeWhile reSpace
    let r1 := r0.dropWhile reSpace
    let a := r1.takeWhile Char.isDigit
    let r2 := r1.dropWhile Char.isDigit
    let s2 := r2.takeWhile reSpace
    let r3 := r2.dropWhile reSpace
    match dropLit "Writing:".data r3 with
    | none => none
    | some r4 =>
      let s3 := r4.takeWhile reSpace
      let r5 := r4.dropWhile reSpace
      let b := r5.takeWhile Char.isDigit
      let r6 := r5.dropWhile Char.isDigit
      let s4 := r6.takeWhile reSpace
      let r7 := r6.dropWhile reSpace
      match dropLit "Waiting:".data r7 with
      | none => none
      | some r8 =>
        let s5 := r8.takeWhile reSpace
        let r9 := r8.dropWhile reSpace
        let c := r9.takeWhile Char.isDigit
        let r10 := r9.dropWhile Char.isDigit
        if s1 ≠ [] ∧ a ≠ [] ∧ s2 ≠ [] ∧ s3 ≠ [] ∧ b ≠ [] ∧ s4 ≠ [] ∧
            s5 ≠ [] ∧ c ≠ [] ∧ r10 = [] then some (a, b, c)
        else none

/-- Decimal value of a digit string. -/
def digitsToNat (d : List Char) : Nat :=
  d.foldl (fun a c => a * 10 + (c.toNat - 48)) 0

/-- The message of Go's `strconv` range error for base-10 uint64
parsing. -/
def rangeMsg (d : List Char) : String :=
  "strconv.ParseUint: parsing \"" ++ String.mk d ++ "\": value out of range"

/-- `strconv.ParseUint(s, 10, 64)`: accepts exactly the nonempty digit
strings whose value fits in 64 unsigned bits. -/
def goParseUint64 (d : List Char) : Except String Nat :=
  if d = [] then
    .error ("strconv.ParseUint: parsing \"" ++ String.mk d ++ "\": invalid syntax")
  else if d.all Char.isDigit then
    if digitsToNat d < 2 ^ 64 then .ok (digitsToNat d)
    else .error (rangeMsg d)
  else
    .error ("strconv.ParseUint: parsing \"" ++ String.mk d ++ "\": invalid syntax")

/-- Exponent of the highest set bit, fuel-bounded (`log2fuel 64 n` is
`floor (log2 n)` for every `n < 2^64`, and `0` for `n = 0`). -/
def log2fuel : Nat → Nat → Nat
  | 0, _ => 0
  | f + 1, n => if 2 ≤ n then log2fuel f (n / 2) + 1 else 0

/-- Unit in the last place of the binary64 value nearest to `n`
(`1` below `2^53`, doubling with each further binade). -/
def ulp64 (n : Nat) : Nat := 2 ^ (log2fuel 64 n - 52)

/-- Go `float64(value)` on a uint64: round to the nearest multiple of
the ulp, ties to the even multiple. For `n < 2^64` the result is the
exact integral value of the resulting double. -/
def float64ofUint64 (n : Nat) : Nat :=
  let u := ulp64 n
  let q := n / u
  let r := n % u
  if 2 * r < u then q * u
  else if u < 2 * r then (q + 1) * u
  else if q % 2 = 0 then q * u else (q + 1) * u

/-- `dto.MetricType` (only COUNTER and GAUGE are used by this check). -/
inductive MetricType
  | COUNTER
  | GAUGE
  | SUMMARY
  | UNTYPED
  | HISTOGRAM
  deriving DecidableEq

/-- `dto.LabelPair`. -/
structure LabelPair where
  name : String
  value : String
  deriving DecidableEq

/-- `dto.Counter`; the float64 sample value, modelled by its exact
integral value (see `float64ofUint64`). -/
structure GoCounter where
  value : Nat
  deriving DecidableEq

/-- `dto.Gauge`; the float64 sample value, modelled as in `GoCounter`. -/
structure GoGauge where
  value : Nat
  deriving DecidableEq

/-- `dto.Metric`: one sample with its labels and timestamp. -/
structure Metric where
  label : List LabelPair
  gauge : Option GoGauge := none
  counter : Option GoCounter := none
  timestampMs : Int
  deriving DecidableEq

/-- `dto.MetricFamily`. -/
structure MetricFamily where
  name : String
  help : String
  type : MetricType
  metric : List Metric
  deriving DecidableEq

/-- `MetricDesc`: help text and kind for one metric name. -/
structure MetricDesc where
  help : String
  metricType : MetricType
  deriving DecidableEq

/-- The fixed global label names. -/
def labelHost : String := "host"

/-- The fixed global label names. -/
def labelPort : String := "port"

/-- The static `metricHelp` descriptor table (a Go map from metric name
to `MetricDesc`; lookup of an absent key yields `none` like a nil map
entry). -/
def metricHelp : String → Option MetricDesc
  | "nginx_active" => some ⟨"number of active connections", .GAUGE⟩
  | "nginx_handled" => some ⟨"handled connections", .COUNTER⟩
  | "nginx_accepts" => some ⟨"accepted connections", .COUNTER⟩
  | "nginx_requests" => some ⟨"handled requests", .COUNTER⟩
  | "nginx_reading" => some ⟨"reading requests", .GAUGE⟩
  | "nginx_writing" => some ⟨"writing requests", .GAUGE⟩
  | "nginx_waiting" => some ⟨"keep-alive connections", .GAUGE⟩
  | _ => none

/-- `addNewCounterMetric`: append one counter sample to a family. -/
def addNewCounterMetric (family : MetricFamily) (value : Nat)
    (timestampMS : Int) (host port : String) : MetricFamily :=
  { family with
    metric := family.metric ++
      [{ label := [⟨labelHost, host⟩, ⟨labelPort, port⟩],
         counter := some ⟨value⟩, timestampMs := timestampMS }] }

/-- `addNewGaugeMetric`: append one gauge sample to a family. -/
def addNewGaugeMetric (family : MetricFamily) (value : Nat)
    (timestampMS : Int) (host port : String) : MetricFamily :=
  { family with
    metric := family.metric ++
      [{ label := [⟨labelHost, host⟩, ⟨labelPort, port⟩],
         gauge := some ⟨value⟩, timestampMs := timestampMS }] }

/-- `addNewMetric`: look the name up in `metricHelp`, build the family
with a single sample (converting the uint64 value to float64), and
append it to the accumulator. -/
def addNewMetric (metrics : List MetricFamily) (metricType : String)
    (value : Nat) (timestampMS : Int) (hostname port : String) :
    List MetricFamily :=
  match metricHelp metricType with
  | none => metrics
  | some metricDesc =>
    let family : MetricFamily :=
      { name := metricType, help := metricDesc.help,
        type := metricDesc.metricType, metric := [] }
    let family :=
      if metricDesc.metricType = .COUNTER then
        addNewCounterMetric family (float64ofUint64 value) timestampMS hostname port
      else if metricDesc.metricType = .GAUGE then
        addNewGaugeMetric family (float64ofUint64 value) timestampMS hostname port
      else family
    metrics ++ [family]

/-- The body of `extractMetrics` after the line-count check, on the four
non-blank lines. The second line is consumed but never inspected. The
source formats `lines[0]` into the line-3 and line-4 mismatch messages
(the literal `fmt.Errorf("unexpected input for line 3: %s", lines[0])`
and likewise for line 4), which this embedding reproduces. -/
def extractFromLines (l1 _l2 l3 l4 : List Char) (hostname port : String)
    (nowMS : Int) : Except String (List MetricFamily) :=
  match line1Match l1 with
  | none => .error ("unexpected input for line 1: " ++ String.mk l1)
  | some d1 =>
    match goParseUint64 d1 with
    | .error e => .error ("invalid number of connections: " ++ e)
    | .ok active =>
      let metrics := addNewMetric [] "nginx_active" active nowMS hostname port
      match line3Match l3 with
      | none => .error ("unexpected input for line 3: " ++ String.mk l1)
      | some (da, dh, dr) =>
        match goParseUint64 da with
        | .error e => .error ("invalid accepts value: " ++ e)
        | .ok accepts =>
          let metrics := addNewMetric metrics "nginx_accepts" accepts nowMS hostname port
          match goParseUint64 dh with
          | .error e => .error ("invalid handled value: " ++ e)
          | .ok handled =>
            let metrics := addNewMetric metrics "nginx_handled" handled nowMS hostname port
            match goParseUint64 dr with
            | .error e => .error ("invalid requests value: " ++ e)
            | .ok requests =>
              let metrics := addNewMetric metrics "nginx_requests" requests nowMS hostname port
              match line4Match l4 with
              | none => .error ("unexpected input for line 4: " ++ String.mk l1)
              | some (dre, dw, dwa) =>
                match goParseUint64 dre with
                | .error e => .error ("invalid reading value: " ++ e)
                | .ok reading =>
                  let metrics := addNewMetric metrics "nginx_reading" reading nowMS hostname port
                  match goParseUint64 dw with
                  | .error e => .error ("invalid writing value: " ++ e)
                  | .ok writing =>
                    let metrics := addNewMetric metrics "nginx_writing" writing nowMS hostname port
                    match goParseUint64 dwa with
                    | .error e => .error ("invalid waiting value: " ++ e)
                    | .ok waiting =>
                      let metrics := addNewMetric metrics "nginx_waiting" waiting nowMS hostname port
                      .ok metrics

/-- `extractMetrics` on the filtered non-blank lines: check the count,
then index lines 0..3 (the Go code indexes `lines[0]`..`lines[3]` after
the length check; `getD` with an arbitrary default models the in-bounds
indexing). -/
def extractLines (lines : List (List Char)) (hostname port : String)
    (nowMS : Int) : Except String (List MetricFamily) :=
  if lines.length = 4 then
    extractFromLines (lines.getD 0 []) (lines.getD 1 []) (lines.getD 2 [])
      (lines.getD 3 []) hostname port nowMS
  else
    .error ("4 output lines are expected, got " ++ toString lines.length)

/-- `extractMetrics(content, hostname, port)` with the time source made
explicit: `nowMS` is the value of `nowFn().UnixMilli()` captured once at
the start of the invocation. -/
def extractMetrics (content : List Char) (hostname port : String)
    (nowMS : Int) : Except String (List MetricFamily) :=
  extractLines (nonBlankLines content) hostname port nowMS

/-- The observable outcome of the HTTP GET inside `loadData`: either a
transport error (connection, DNS, timeout), or a response with a status
code and a body read that may itself fail. -/
structure HTTPResponse where
  statusCode : Nat
  body : Except String (List Char)

/-- `loadData` over the abstracted HTTP outcome: propagate transport
errors, reject any non-200 status with its numeric code, surface body
read failures, otherwise return the full body. -/
def loadData (resp : Except String HTTPResponse) : Except String (List Char) :=
  match resp with
  | .error e => .error e
  | .ok r =>
    if r.statusCode ≠ 200 then
      .error ("invalid nginx status code: " ++ toString r.statusCode)
    else
      match r.body with
      | .error e => .error ("error reading body content: " ++ e)
      | .ok body => .ok body

/-- `GetMetrics`: fetch, then extract. -/
def GetMetrics (resp : Except String HTTPResponse) (hostname port : String)
    (nowMS : Int) : Except String (List MetricFamily) :=
  match loadData resp with
  | .error e => .error e
  | .ok data => extractMetrics data hostname port nowMS

/-- A gauge family as `addNewMetric` builds it. -/
def gaugeFam (name help : String) (v : Nat) (t : Int) (h p : String) :
    MetricFamily :=
  { name := name, help := help, type := .GAUGE,
    metric := [{ label := [⟨"host", h⟩, ⟨"port", p⟩],
                 gauge := some ⟨float64ofUint64 v⟩, timestampMs := t }] }

/-- A counter family as `addNewMetric` builds it. -/
def counterFam (name help : String) (v : Nat) (t : Int) (h p : String) :
    MetricFamily :=
  { name := name, help := help, type := .COUNTER,
    metric := [{ label := [⟨"host", h⟩, ⟨"port", p⟩],
                 counter := some ⟨float64ofUint64 v⟩, timestampMs := t }] }

/-- The full successful output of `extractMetrics`: the seven families
in emission order with their static descriptors. -/
def mkFamilies (active accepts handled requests reading writing waiting : Nat)
    (t : Int) (h p : String) : List MetricFamily :=
  [gaugeFam "nginx_active" "number of active connections" active t h p,
   counterFam "nginx_accepts" "accepted connections" accepts t h p,
   counterFam "nginx_handled" "handled connections" handled t h p,
   counterFam "nginx_requests" "handled requests" requests t h p,
   gaugeFam "nginx_reading" "reading requests" reading t h p,
   gaugeFam "nginx_writing" "writing requests" writing t h p,
   gaugeFam "nginx_waiting" "keep-alive connections" waiting t h p]

/-- Test payload of the repository's happy scenario (scenario A). -/
def payloadA : List Char :=
  ("Active connections: 33\nserver accepts handled requests\n1237 89 91\nReading: 55 Writing: 767 Waiting: 1234\n").data

/-- Scenario A's payload with extra surrounding whitespace on every line
(scenario B). -/
def payloadB : List Char :=
  ("   Active connections: 33  \n  server accepts handled requests \n  1237 89 91   \n  Reading: 55 Writing: 767 Waiting: 1234  \n").data

/-- Scenario A's payload with only three non-blank lines (scenario C). -/
def payloadC : List Char :=
  ("Active connections: 33\nserver accepts handled requests\n1237 89 91\n").data

/-- Scenario A's payload with a corrupted third line (scenario D). -/
def payloadD : List Char :=
  ("Active connections: 33\nserver accepts handled requests\nhuh1237 89 91\nReading: 55 Writing: 767 Waiting: 1234\n").data

/-- Scenario A's payload with an `active` count of `2^64`, one past the
largest value `strconv.ParseUint` accepts. -/
def payloadOv : List Char :=
  ("Active connections: 18446744073709551616\nserver accepts handled requests\n1237 89 91\nReading: 55 Writing: 767 Waiting: 1234\n").data

/-- Scenario A with 70000 spaces of padding prepended to line 1: the
padded line is 70022 bytes, past the scanner cap. -/
def payloadE : List Char :=
  (List.replicate 70000 ' ' ++ "Active connections: 33".data) ++
    '\n' :: ("server accepts handled requests".data ++
    '\n' :: ("1237 89 91".data ++
    '\n' :: ("Reading: 55 Writing: 767 Waiting: 1234".data ++ '\n' :: [])))

/-- Scenario A with the second line replaced by 70000 `x` characters: a
non-blank line past the scanner cap. -/
def payloadF : List Char :=
  "Active connections: 33".data ++
    '\n' :: (List.replicate 70000 'x' ++
    '\n' :: ("1237 89 91".data ++
    '\n' :: ("Reading: 55 Writing: 767 Waiting: 1234".data ++ '\n' :: [])))

/-- Scenario A followed by a fifth, unterminated line of 70000 `a`
characters, past the scanner cap. -/
def payloadG : List Char :=
  "Active connections: 33".data ++
    '\n' :: ("server accepts handled requests".data ++
    '\n' :: ("1237 89 91".data ++
    '\n' :: ("Reading: 55 Writing: 767 Waiting: 1234".data ++
    '\n' :: List.replicate 70000 'a')))

/-- `startsWith pat s`: `pat` is a prefix of `s`. -/
def startsWith : List Char → List Char → Bool
  | [], _ => true
  | _ :: _, [] => false
  | a :: as, b :: bs => a = b && startsWith as bs

/-- `containsSeg pat s`: `pat` occurs as a contiguous segment of `s`
(used to state what a message does or does not mention). -/
def containsSeg (pat : List Char) : List Char → Bool
  | [] => startsWith pat []
  | c :: cs => startsWith pat (c :: cs) || containsSeg pat cs

/-- One line of a padded payload: the original line with arbitrary
leading and trailing white space added. -/
def PaddedLine (l l' : List Char) : Prop :=
  ∃ w1 w2, l' = w1 ++ l ++ w2 ∧
    (∀ c ∈ w1, goIsSpace c = true) ∧ (∀ c ∈ w2, goIsSpace c = true)

/-- Outcome test for `Except`. -/
def isOkE {ε α : Type} : Except ε α → Bool
  | .ok _ => true
  | .error _ => false

/-- Line 1 is valid: it matches its pattern and its capture parses. -/
def line1Valid (l : List Char) : Bool :=
  match line1Match l with
  | some d => isOkE (goParseUint64 d)
  | none => false

/-- Line 3 is valid: it matches its pattern and its three captures
parse. -/
def line3Valid (l : List Char) : Bool :=
  match line3Match l with
  | some (a, b, c) =>
    isOkE (goParseUint64 a) && isOkE (goParseUint64 b) &&
      isOkE (goParseUint64 c)
  | none => false

/-- Line 4 is valid: it matches its pattern and its three captures
parse. -/
def line4Valid (l : List Char) : Bool :=
  match line4Match l with
  | some (a, b, c) =>
    isOkE (goParseUint64 a) && isOkE (goParseUint64 b) &&
      isOkE (goParseUint64 c)
  | none => false

/-- Scenario A's payload with an arbitrary second line. -/
def payloadW : List Char :=
  ("Active connections: 33\n@@@ arbitrary line 2 @@@\n1237 89 91\nReading: 55 Writing: 767 Waiting: 1234\n").data

/-- Every successful run of the parsing stage produces exactly the
seven-family list `mkFamilies` built from the seven parsed fields. -/
theorem extractFromLines_ok_shape (l1 l2 l3 l4 : List Char)
    (hostname port : String) (t : Int) (ms : List MetricFamily)
    (hms : extractFromLines l1 l2 l3 l4 hostname port t = .ok ms) :
    ∃ a acc han req rdg wrt wtg,
      ms = mkFamilies a acc han req rdg wrt wtg t hostname port := by
  simp only [extractFromLines] at hms
  repeat' split at hms
  any_goals exact Except.noConfusion hms
  injection hms with h
  subst h
  exact ⟨_, _, _, _, _, _, _, rfl⟩

/-- Lift of `extractFromLines_ok_shape` through the line-count check. -/
theorem extractMetrics_ok_shape (content : List Char) (hostname port : String)
    (t : Int) (ms : List MetricFamily)
    (hms : extractMetrics content hostname port t = .ok ms) :
    ∃ a acc han req rdg wrt wtg,
      ms = mkFamilies a acc han req rdg wrt wtg t hostname port := by
  unfold extractMetrics extractLines at hms
  split at hms
  · exact extractFromLines_ok_shape _ _ _ _ _ _ _ _ hms
  · exact Except.noConfusion hms

/-- C1: on the payload `"Active connections: 33\nserver accepts handled
requests\n1237 89 91\nReading: 55 Writing: 767 Waiting: 1234\n"` with
hostname `"myhost.sensu.local"` and port `"3456"`, `extractMetrics`
succeeds and returns exactly the seven records in the fixed order
nginx_active, nginx_accepts, nginx_handled, nginx_requests,
nginx_reading, nginx_writing, nginx_waiting, with values 33, 1237, 89,
91, 55, 767, 1234, labels host/port, gauges for
active/reading/writing/waiting and counters for
accepts/handled/requests as the static descriptor table dictates. -/
theorem extractMetrics_scenarioA (t : Int) :
    extractMetrics payloadA "myhost.sensu.local" "3456" t = .ok
      [{ name := "nginx_active", help := "number of active connections",
         type := .GAUGE,
         metric := [{ label := [⟨"host", "myhost.sensu.local"⟩, ⟨"port", "3456"⟩],
                      gauge := some ⟨33⟩, timestampMs := t }] },
       { name := "nginx_accepts", help := "accepted connections",
         type := .COUNTER,
         metric := [{ label := [⟨"host", "myhost.sensu.local"⟩, ⟨"port", "3456"⟩],
                      counter := some ⟨1237⟩, timestampMs := t }] },
       { name := "nginx_handled", help := "handled connections",
         type := .COUNTER,
         metric := [{ label := [⟨"host", "myhost.sensu.local"⟩, ⟨"port", "3456"⟩],
                      counter := some ⟨89⟩, timestampMs := t }] },
       { name := "nginx_requests", help := "handled requests",
         type := .COUNTER,
         metric := [{ label := [⟨"host", "myhost.sensu.local"⟩, ⟨"port", "3456"⟩],
                      counter := some ⟨91⟩, timestampMs := t }] },
       { name := "nginx_reading", help := "reading requests",
         type := .GAUGE,
         metric := [{ label := [⟨"host", "myhost.sensu.local"⟩, ⟨"port", "3456"⟩],
                      gauge := some ⟨55⟩, timestampMs := t }] },
       { name := "nginx_writing", help := "writing requests",
         type := .GAUGE,
         metric := [{ label := [⟨"host", "myhost.sensu.local"⟩, ⟨"port", "3456"⟩],
                      gauge := some ⟨767⟩, timestampMs := t }] },
       { name := "nginx_waiting", help := "keep-alive connections",
         type := .GAUGE,
         metric := [{ label := [⟨"host", "myhost.sensu.local"⟩, ⟨"port", "3456"⟩],
                      gauge := some ⟨1234⟩, timestampMs := t }] }] := by
  rfl

/-- C2: on a payload whose third non-blank line `"huh1237 89 91"` fails
its pattern, `extractMetrics` reports the right line number but formats
line 1's content, not the offending line's own content, into the
message (the source interpolates `lines[0]` in the line-3 and line-4
mismatch errors). -/
theorem extractMetrics_line3_error_content :
    extractMetrics payloadD "myhost.sensu.local" "3456" 0 =
      .error "unexpected input for line 3: Active connections: 33" ∧
    containsSeg "huh1237 89 91".data
      "unexpected input for line 3: Active connections: 33".data = false :=
  ⟨rfl, by decide⟩

/-- C3: whenever the number of non-blank lines is not 4,
`extractMetrics` fails with the message naming the observed count and
returns no metrics. -/
theorem extractMetrics_line_count (content : List Char)
    (hostname port : String) (t : Int)
    (h : (nonBlankLines content).length ≠ 4) :
    extractMetrics content hostname port t =
      .error ("4 output lines are expected, got " ++
        toString (nonBlankLines content).length) := by
  unfold extractMetrics extractLines
  rw [if_neg h]

/-- Witness for C3: scenario C, a three-line payload, yields exactly the
message `"4 output lines are expected, got 3"`. -/
theorem extractMetrics_line_count_witness :
    (nonBlankLines payloadC).length ≠ 4 ∧
    extractMetrics payloadC "myhost.sensu.local" "3456" 0 =
      .error "4 output lines are expected, got 3" :=
  ⟨by decide,
    (extractMetrics_line_count payloadC "myhost.sensu.local" "3456" 0
      (by decide)).trans (by rfl)⟩

/-- C4: on any successful run, every returned family holds exactly one
sample, that sample's timestamp is the single value captured from the
injected time source at the start of the invocation, and its labels are
exactly the host and port pairs. -/
theorem extractMetrics_uniform_timestamp (content : List Char)
    (hostname port : String) (t : Int) (ms : List MetricFamily)
    (hms : extractMetrics content hostname port t = .ok ms) :
    ∀ fam ∈ ms, ∃ m, fam.metric = [m] ∧ m.timestampMs = t ∧
      m.label = [⟨"host", hostname⟩, ⟨"port", port⟩] := by
  obtain ⟨a, acc, han, req, rdg, wrt, wtg, rfl⟩ :=
    extractMetrics_ok_shape _ _ _ _ _ hms
  intro fam hfam
  simp only [mkFamilies, gaugeFam, counterFam, List.mem_cons,
    List.not_mem_nil, or_false] at hfam
  rcases hfam with rfl | rfl | rfl | rfl | rfl | rfl | rfl <;>
    exact ⟨_, rfl, rfl, rfl⟩

/-- Witness for C4 at scenario A with timestamp 12. -/
theorem extractMetrics_uniform_timestamp_witness :
    ∃ m, (gaugeFam "nginx_active" "number of active connections" 33 12
        "myhost.sensu.local" "3456").metric = [m] ∧
      m.timestampMs = 12 ∧
      m.label = [⟨"host", "myhost.sensu.local"⟩, ⟨"port", "3456"⟩] :=
  extractMetrics_uniform_timestamp payloadA "myhost.sensu.local" "3456" 12
    (mkFamilies 33 1237 89 91 55 767 1234 12 "myhost.sensu.local" "3456") rfl
    (gaugeFam "nginx_active" "number of active connections" 33 12
      "myhost.sensu.local" "3456")
    (by simp [mkFamilies])

/-- C5: `extractMetrics` is all-or-nothing: on every input it either
succeeds with exactly 7 records or fails with an error and no record
list at all. -/
theorem extractMetrics_all_or_nothing (content : List Char)
    (hostname port : String) (t : Int) :
    (∃ ms, extractMetrics content hostname port t = .ok ms ∧ ms.length = 7) ∨
    (∃ e, extractMetrics content hostname port t = .error e) := by
  match hE : extractMetrics content hostname port t with
  | .error e => exact .inr ⟨e, rfl⟩
  | .ok ms =>
    obtain ⟨a, acc, han, req, rdg, wrt, wtg, rfl⟩ :=
      extractMetrics_ok_shape _ _ _ _ _ hE
    exact .inl ⟨_, rfl, by simp [mkFamilies]⟩

/-- Dropping an all-space block prepended to the input. -/
theorem dropWhile_sp_append {w x : List Char}
    (h : ∀ c ∈ w, goIsSpace c = true) :
    (w ++ x).dropWhile goIsSpace = x.dropWhile goIsSpace := by
  induction w with
  | nil => rfl
  | cons a as ih =>
    rw [List.cons_append,
      List.dropWhile_cons_of_pos (h a (List.mem_cons_self a as))]
    exact ih fun c hc => h c (List.mem_cons_of_mem a hc)

/-- Padding a line with white space does not change its trim. -/
theorem trim_padded {l l' : List Char} (h : PaddedLine l l') :
    trim l' = trim l := by
  obtain ⟨w1, w2, rfl, hw1, hw2⟩ := h
  have h1 : ∀ c ∈ w1.reverse, goIsSpace c = true := fun c hc =>
    hw1 c (List.mem_reverse.mp hc)
  have h2 : ∀ c ∈ w2.reverse, goIsSpace c = true := fun c hc =>
    hw2 c (List.mem_reverse.mp hc)
  show trimL ((trimL (w1 ++ l ++ w2).reverse).reverse) =
    trimL ((trimL l.reverse).reverse)
  rw [show (w1 ++ l ++ w2).reverse = w2.reverse ++ (l.reverse ++ w1.reverse)
    by simp]
  unfold trimL
  rw [dropWhile_sp_append h2, List.dropWhile_append]
  by_cases hnil : (l.reverse.dropWhile goIsSpace).isEmpty
  · have hnil' : l.reverse.dropWhile goIsSpace = [] := by
      rwa [List.isEmpty_iff] at hnil
    rw [if_pos hnil, List.dropWhile_eq_nil_iff.mpr h1, hnil']
  · rw [if_neg hnil, List.reverse_append, List.reverse_reverse]
    exact dropWhile_sp_append hw1

/-- Padding every line of a payload leaves the trimmed lines unchanged. -/
theorem mapTrim_of_forall₂ {ls ls' : List (List Char)}
    (h : List.Forall₂ PaddedLine ls ls') : ls'.map trim = ls.map trim := by
  induction h with
  | nil => rfl
  | cons hpad _ ih => simp [trim_padded hpad, ih]

/-- `utf8Len` adds over appends. -/
theorem utf8Len_append (a b : List Char) :
    utf8Len (a ++ b) = utf8Len a + utf8Len b := by
  unfold utf8Len
  rw [List.map_append, List.sum_append]

/-- `utf8Len` of a repeated character. -/
theorem utf8Len_replicate (n : Nat) (c : Char) :
    utf8Len (List.replicate n c) = n * c.utf8Size := by
  induction n with
  | zero => simp [utf8Len]
  | succ n ih =>
    rw [List.replicate_succ]
    unfold utf8Len at *
    rw [List.map_cons, List.sum_cons, ih]
    ring

/-- When every line is short enough, the scanner yields the full raw
line decomposition. -/
theorem scanLines_total {c : List Char}
    (h : ∀ l ∈ splitNL c, utf8Len l < MaxScanTokenSize) :
    scanLines c = splitNL c := by
  unfold scanLines
  exact List.takeWhile_eq_self_iff.mpr (by simpa using h)

/-- A padded line is at least as long as its original: if every padded
line is under the cap, so is every original line. -/
theorem forall₂_cap {ls ls' : List (List Char)}
    (h : List.Forall₂ PaddedLine ls ls')
    (hcap : ∀ l ∈ ls', utf8Len l < MaxScanTokenSize) :
    ∀ l ∈ ls, utf8Len l < MaxScanTokenSize := by
  induction h with
  | nil => intro l hl; exact absurd hl (List.not_mem_nil l)
  | cons hpad hrest ih =>
    intro l hl
    rcases List.mem_cons.mp hl with rfl | hl'
    · obtain ⟨w1, w2, heq, _, _⟩ := hpad
      have hb := hcap _ (List.mem_cons_self _ _)
      rw [heq, utf8Len_append, utf8Len_append] at hb
      omega
    · exact ih (fun x hx => hcap x (List.mem_cons_of_mem _ hx)) l hl'

/-- C6 (amended): adding leading or trailing white space to any of the
payload's lines leaves the result of `extractMetrics` unchanged, on
success and on failure alike, provided every padded line stays under
the scanner's 64 KiB line cap (padding a line past the cap aborts the
scan instead — see the counterexample). -/
theorem extractMetrics_whitespace (P Q : List Char) (hostname port : String)
    (t : Int) (hpad : List.Forall₂ PaddedLine (splitNL P) (splitNL Q))
    (hcap : ∀ l ∈ splitNL Q, utf8Len l < MaxScanTokenSize) :
    extractMetrics Q hostname port t = extractMetrics P hostname port t := by
  unfold extractMetrics nonBlankLines
  rw [scanLines_total hcap, scanLines_total (forall₂_cap hpad hcap),
    mapTrim_of_forall₂ hpad]

/-- Witness for C6: scenario B (scenario A with extra surrounding white
space on every line) yields the same output as scenario A. -/
theorem extractMetrics_whitespace_witness :
    extractMetrics payloadB "myhost.sensu.local" "3456" 3 =
      extractMetrics payloadA "myhost.sensu.local" "3456" 3 :=
  extractMetrics_whitespace payloadA payloadB "myhost.sensu.local" "3456" 3
    (by
      show List.Forall₂ PaddedLine
        ["Active connections: 33".data,
         "server accepts handled requests".data,
         "1237 89 91".data,
         "Reading: 55 Writing: 767 Waiting: 1234".data, []]
        ["   Active connections: 33  ".data,
         "  server accepts handled requests ".data,
         "  1237 89 91   ".data,
         "  Reading: 55 Writing: 767 Waiting: 1234  ".data, []]
      refine List.Forall₂.cons
        ⟨"   ".data, "  ".data, by decide, by decide, by decide⟩ ?_
      refine List.Forall₂.cons
        ⟨"  ".data, " ".data, by decide, by decide, by decide⟩ ?_
      refine List.Forall₂.cons
        ⟨"  ".data, "   ".data, by decide, by decide, by decide⟩ ?_
      refine List.Forall₂.cons
        ⟨"  ".data, "  ".data, by decide, by decide, by decide⟩ ?_
      exact List.Forall₂.cons ⟨[], [], by decide, by decide, by decide⟩
        List.Forall₂.nil)
    (by decide)

/-- `isOkE` detects exactly the `ok` results. -/
theorem isOkE_iff {ε α : Type} (e : Except ε α) :
    isOkE e = true ↔ ∃ v, e = .ok v := by
  cases e <;> simp [isOkE]

/-- A valid line 1 yields a match whose capture parses. -/
theorem line1Valid_spec {l : List Char} (h : line1Valid l = true) :
    ∃ d a, line1Match l = some d ∧ goParseUint64 d = .ok a := by
  unfold line1Valid at h
  split at h
  · next d heq =>
    obtain ⟨a, ha⟩ := (isOkE_iff _).mp h
    exact ⟨d, a, heq, ha⟩
  · exact absurd h (by simp)

/-- A valid line 3 yields a match whose three captures parse. -/
theorem line3Valid_spec {l : List Char} (h : line3Valid l = true) :
    ∃ da db dc a b c, line3Match l = some (da, db, dc) ∧
      goParseUint64 da = .ok a ∧ goParseUint64 db = .ok b ∧
      goParseUint64 dc = .ok c := by
  unfold line3Valid at h
  split at h
  · next da db dc heq =>
    simp only [Bool.and_eq_true] at h
    obtain ⟨⟨h1, h2⟩, h3⟩ := h
    obtain ⟨a, ha⟩ := (isOkE_iff _).mp h1
    obtain ⟨b, hb⟩ := (isOkE_iff _).mp h2
    obtain ⟨c, hc⟩ := (isOkE_iff _).mp h3
    exact ⟨da, db, dc, a, b, c, heq, ha, hb, hc⟩
  · exact absurd h (by simp)

/-- A valid line 4 yields a match whose three captures parse. -/
theorem line4Valid_spec {l : List Char} (h : line4Valid l = true) :
    ∃ da db dc a b c, line4Match l = some (da, db, dc) ∧
      goParseUint64 da = .ok a ∧ goParseUint64 db = .ok b ∧
      goParseUint64 dc = .ok c := by
  unfold line4Valid at h
  split at h
  · next da db dc heq =>
    simp only [Bool.and_eq_true] at h
    obtain ⟨⟨h1, h2⟩, h3⟩ := h
    obtain ⟨a, ha⟩ := (isOkE_iff _).mp h1
    obtain ⟨b, hb⟩ := (isOkE_iff _).mp h2
    obtain ⟨c, hc⟩ := (isOkE_iff _).mp h3
    exact ⟨da, db, dc, a, b, c, heq, ha, hb, hc⟩
  · exact absurd h (by simp)

/-- When the payload has exactly the four non-blank lines `l1..l4`,
`extractMetrics` is the parsing stage on those lines. -/
theorem extractMetrics_of_lines {content l1 l2 l3 l4 : List Char}
    (hl : nonBlankLines content = [l1, l2, l3, l4])
    (hostname port : String) (t : Int) :
    extractMetrics content hostname port t =
      extractFromLines l1 l2 l3 l4 hostname port t := by
  unfold extractMetrics extractLines
  rw [hl]
  rfl

/-- When every line parses, the parsing stage succeeds with exactly the
seven families. -/
theorem extractFromLines_ok (l1 l2 l3 l4 : List Char)
    (hostname port : String) (t : Int)
    {d1 da dh dr dre dw dwa : List Char} {a acc han req rdg wrt wtg : Nat}
    (h1 : line1Match l1 = some d1) (hp1 : goParseUint64 d1 = .ok a)
    (h3 : line3Match l3 = some (da, dh, dr))
    (hpa : goParseUint64 da = .ok acc) (hph : goParseUint64 dh = .ok han)
    (hpr : goParseUint64 dr = .ok req)
    (h4 : line4Match l4 = some (dre, dw, dwa))
    (hpe : goParseUint64 dre = .ok rdg) (hpw : goParseUint64 dw = .ok wrt)
    (hpt : goParseUint64 dwa = .ok wtg) :
    extractFromLines l1 l2 l3 l4 hostname port t =
      .ok (mkFamilies a acc han req rdg wrt wtg t hostname port) := by
  simp only [extractFromLines, h1, hp1, h3, hpa, hph, hpr, h4, hpe, hpw, hpt]
  rfl

/-- C7: on any payload with exactly four non-blank lines whose lines 1,
3 and 4 are valid, `extractMetrics` succeeds no matter what the second
non-blank line contains; the parsing stage never inspects it. -/
theorem extractMetrics_line2_ignored (content : List Char)
    (hostname port : String) (t : Int) (l1 l2 l3 l4 : List Char)
    (hl : nonBlankLines content = [l1, l2, l3, l4])
    (h1 : line1Valid l1 = true) (h3 : line3Valid l3 = true)
    (h4 : line4Valid l4 = true) :
    isOkE (extractMetrics content hostname port t) = true ∧
    ∀ l2', extractFromLines l1 l2' l3 l4 hostname port t =
      extractFromLines l1 l2 l3 l4 hostname port t := by
  refine ⟨?_, fun _ => rfl⟩
  obtain ⟨d1, a, hm1, hq1⟩ := line1Valid_spec h1
  obtain ⟨da, db, dc, acc, han, req, hm3, hqa, hqb, hqc⟩ := line3Valid_spec h3
  obtain ⟨dre, dw, dwa, rdg, wrt, wtg, hm4, hqe, hqw, hqt⟩ := line4Valid_spec h4
  rw [extractMetrics_of_lines hl,
    extractFromLines_ok l1 l2 l3 l4 hostname port t hm1 hq1 hm3 hqa hqb hqc
      hm4 hqe hqw hqt]
  rfl

/-- Witness for C7: a payload whose second line is `@@@ arbitrary line 2
@@@` still parses successfully. -/
theorem extractMetrics_line2_ignored_witness :
    isOkE (extractMetrics payloadW "myhost.sensu.local" "3456" 0) = true :=
  (extractMetrics_line2_ignored payloadW "myhost.sensu.local" "3456" 0
    "Active connections: 33".data "@@@ arbitrary line 2 @@@".data
    "1237 89 91".data "Reading: 55 Writing: 767 Waiting: 1234".data
    (by decide) (by decide) (by decide) (by decide)).1

/-- The capture of line 1 is a nonempty digit string. -/
theorem line1Match_digits {l d : List Char} (h : line1Match l = some d) :
    d ≠ [] ∧ d.all Char.isDigit = true := by
  unfold line1Match at h
  split at h
  · exact Option.noConfusion h
  · split at h
    · next hcond =>
      injection h with h'
      subst h'
      exact hcond
    · exact Option.noConfusion h

/-- The captures of line 3 are nonempty digit strings. -/
theorem line3Match_digits {l a b c : List Char}
    (h : line3Match l = some (a, b, c)) :
    (a ≠ [] ∧ a.all Char.isDigit = true) ∧
    (b ≠ [] ∧ b.all Char.isDigit = true) ∧
    (c ≠ [] ∧ c.all Char.isDigit = true) := by
  simp only [line3Match] at h
  split at h
  · next hcond =>
    injection h with h'
    simp only [Prod.mk.injEq] at h'
    obtain ⟨ha, hb, hc⟩ := h'
    subst ha; subst hb; subst hc
    obtain ⟨hA, _, hB, _, hC, _⟩ := hcond
    exact ⟨⟨hA, List.all_takeWhile⟩, ⟨hB, List.all_takeWhile⟩,
      ⟨hC, List.all_takeWhile⟩⟩
  · exact Option.noConfusion h

/-- The captures of line 4 are nonempty digit strings. -/
theorem line4Match_digits {l a b c : List Char}
    (h : line4Match l = some (a, b, c)) :
    (a ≠ [] ∧ a.all Char.isDigit = true) ∧
    (b ≠ [] ∧ b.all Char.isDigit = true) ∧
    (c ≠ [] ∧ c.all Char.isDigit = true) := by
  simp only [line4Match] at h
  repeat' split at h
  any_goals exact Option.noConfusion h
  next hcond =>
    injection h with h'
    simp only [Prod.mk.injEq] at h'
    obtain ⟨ha, hb, hc⟩ := h'
    subst ha; subst hb; subst hc
    obtain ⟨_, hA, _, _, hB, _, _, hC, _⟩ := hcond
    exact ⟨⟨hA, List.all_takeWhile⟩, ⟨hB, List.all_takeWhile⟩,
      ⟨hC, List.all_takeWhile⟩⟩

/-- A digit string of value 2^64 or more is rejected with the range
error. -/
theorem goParseUint64_overflow {d : List Char} (hne : d ≠ [])
    (hdig : d.all Char.isDigit = true) (hov : 2 ^ 64 ≤ digitsToNat d) :
    goParseUint64 d = .error (rangeMsg d) := by
  unfold goParseUint64
  rw [if_neg hne, if_pos hdig, if_neg (Nat.not_lt.mpr hov)]

/-- Counterexample to C8 as stated: an `active` count of 2^64 makes
`extractMetrics` fail, but the error message contains none of the seven
field names; the `active` field is reported as `invalid number of
connections` instead. -/
theorem extractMetrics_overflow_active_cex :
    extractMetrics payloadOv "myhost.sensu.local" "3456" 0 =
      .error ("invalid number of connections: " ++
        rangeMsg "18446744073709551616".data) ∧
    (["active", "accepts", "handled", "requests", "reading", "writing",
      "waiting"].all fun w =>
        !containsSeg w.data ("invalid number of connections: " ++
          rangeMsg "18446744073709551616".data).data) = true :=
  ⟨rfl, by decide⟩

/-- C8 (amended): a captured numeric substring is accepted exactly when
its value fits in 64 unsigned bits; an overflowing capture makes
`extractMetrics` fail with a message identifying the invalid field,
where `accepts`, `handled`, `requests`, `reading`, `writing` and
`waiting` are named by the field's own name while an overflowing
`active` is reported as `invalid number of connections`. -/
theorem extractMetrics_uint64_bound :
    (∀ d : List Char, d ≠ [] → d.all Char.isDigit = true →
      (goParseUint64 d = .ok (digitsToNat d) ↔ digitsToNat d < 2 ^ 64)) ∧
    (∀ content l1 l2 l3 l4 hostname port t d1,
      nonBlankLines content = [l1, l2, l3, l4] →
      line1Match l1 = some d1 → 2 ^ 64 ≤ digitsToNat d1 →
      extractMetrics content hostname port t =
        .error ("invalid number of connections: " ++ rangeMsg d1)) ∧
    (∀ content l1 l2 l3 l4 hostname port t d1 a da db dc,
      nonBlankLines content = [l1, l2, l3, l4] →
      line1Match l1 = some d1 → goParseUint64 d1 = .ok a →
      line3Match l3 = some (da, db, dc) → 2 ^ 64 ≤ digitsToNat da →
      extractMetrics content hostname port t =
        .error ("invalid accepts value: " ++ rangeMsg da)) ∧
    (∀ content l1 l2 l3 l4 hostname port t d1 a da db dc acc,
      nonBlankLines content = [l1, l2, l3, l4] →
      line1Match l1 = some d1 → goParseUint64 d1 = .ok a →
      line3Match l3 = some (da, db, dc) → goParseUint64 da = .ok acc →
      2 ^ 64 ≤ digitsToNat db →
      extractMetrics content hostname port t =
        .error ("invalid handled value: " ++ rangeMsg db)) ∧
    (∀ content l1 l2 l3 l4 hostname port t d1 a da db dc acc han,
      nonBlankLines content = [l1, l2, l3, l4] →
      line1Match l1 = some d1 → goParseUint64 d1 = .ok a →
      line3Match l3 = some (da, db, dc) → goParseUint64 da = .ok acc →
      goParseUint64 db = .ok han → 2 ^ 64 ≤ digitsToNat dc →
      extractMetrics content hostname port t =
        .error ("invalid requests value: " ++ rangeMsg dc)) ∧
    (∀ content l1 l2 l3 l4 hostname port t d1 a da db dc acc han req
        de df dg,
      nonBlankLines content = [l1, l2, l3, l4] →
      line1Match l1 = some d1 → goParseUint64 d1 = .ok a →
      line3Match l3 = some (da, db, dc) → goParseUint64 da = .ok acc →
      goParseUint64 db = .ok han → goParseUint64 dc = .ok req →
      line4Match l4 = some (de, df, dg) → 2 ^ 64 ≤ digitsToNat de →
      extractMetrics content hostname port t =
        .error ("invalid reading value: " ++ rangeMsg de)) ∧
    (∀ content l1 l2 l3 l4 hostname port t d1 a da db dc acc han req
        de df dg rdg,
      nonBlankLines content = [l1, l2, l3, l4] →
      line1Match l1 = some d1 → goParseUint64 d1 = .ok a →
      line3Match l3 = some (da, db, dc) → goParseUint64 da = .ok acc →
      goParseUint64 db = .ok han → goParseUint64 dc = .ok req →
      line4Match l4 = some (de, df, dg) → goParseUint64 de = .ok rdg →
      2 ^ 64 ≤ digitsToNat df →
      extractMetrics content hostname port t =
        .error ("invalid writing value: " ++ rangeMsg df)) ∧
    (∀ content l1 l2 l3 l4 hostname port t d1 a da db dc acc han req
        de df dg rdg wrt,
      nonBlankLines content = [l1, l2, l3, l4] →
      line1Match l1 = some d1 → goParseUint64 d1 = .ok a →
      line3Match l3 = some (da, db, dc) → goParseUint64 da = .ok acc →
      goParseUint64 db = .ok han → goParseUint64 dc = .ok req →
      line4Match l4 = some (de, df, dg) → goParseUint64 de = .ok rdg →
      goParseUint64 df = .ok wrt → 2 ^ 64 ≤ digitsToNat dg →
      extractMetrics content hostname port t =
        .error ("invalid waiting value: " ++ rangeMsg dg)) := by
  refine ⟨?_, ?_, ?_, ?_, ?_, ?_, ?_, ?_⟩
  · intro d hne hdig
    constructor
    · intro hok
      by_contra hlt
      rw [goParseUint64_overflow hne hdig (Nat.le_of_not_lt hlt)] at hok
      exact Except.noConfusion hok
    · intro hlt
      unfold goParseUint64
      rw [if_neg hne, if_pos hdig, if_pos hlt]
  · intro content l1 l2 l3 l4 hostname port t d1 hl hm1 hov
    obtain ⟨hne, hdig⟩ := line1Match_digits hm1
    rw [extractMetrics_of_lines hl]
    simp only [extractFromLines, hm1, goParseUint64_overflow hne hdig hov]
  · intro content l1 l2 l3 l4 hostname port t d1 a da db dc hl hm1 hq1
      hm3 hov
    obtain ⟨⟨hne, hdig⟩, _, _⟩ := line3Match_digits hm3
    rw [extractMetrics_of_lines hl]
    simp only [extractFromLines, hm1, hq1, hm3,
      goParseUint64_overflow hne hdig hov]
  · intro content l1 l2 l3 l4 hostname port t d1 a da db dc acc hl hm1 hq1
      hm3 hqa hov
    obtain ⟨_, ⟨hne, hdig⟩, _⟩ := line3Match_digits hm3
    rw [extractMetrics_of_lines hl]
    simp only [extractFromLines, hm1, hq1, hm3, hqa,
      goParseUint64_overflow hne hdig hov]
  · intro content l1 l2 l3 l4 hostname port t d1 a da db dc acc han hl hm1
      hq1 hm3 hqa hqb hov
    obtain ⟨_, _, hne, hdig⟩ := line3Match_digits hm3
    rw [extractMetrics_of_lines hl]
    simp only [extractFromLines, hm1, hq1, hm3, hqa, hqb,
      goParseUint64_overflow hne hdig hov]
  · intro content l1 l2 l3 l4 hostname port t d1 a da db dc acc han req
      de df dg hl hm1 hq1 hm3 hqa hqb hqc hm4 hov
    obtain ⟨⟨hne, hdig⟩, _, _⟩ := line4Match_digits hm4
    rw [extractMetrics_of_lines hl]
    simp only [extractFromLines, hm1, hq1, hm3, hqa, hqb, hqc, hm4,
      goParseUint64_overflow hne hdig hov]
  · intro content l1 l2 l3 l4 hostname port t d1 a da db dc acc han req
      de df dg rdg hl hm1 hq1 hm3 hqa hqb hqc hm4 hqe hov
    obtain ⟨_, ⟨hne, hdig⟩, _⟩ := line4Match_digits hm4
    rw [extractMetrics_of_lines hl]
    simp only [extractFromLines, hm1, hq1, hm3, hqa, hqb, hqc, hm4, hqe,
      goParseUint64_overflow hne hdig hov]
  · intro content l1 l2 l3 l4 hostname port t d1 a da db dc acc han req
      de df dg rdg wrt hl hm1 hq1 hm3 hqa hqb hqc hm4 hqe hqw hov
    obtain ⟨_, _, hne, hdig⟩ := line4Match_digits hm4
    rw [extractMetrics_of_lines hl]
    simp only [extractFromLines, hm1, hq1, hm3, hqa, hqb, hqc, hm4, hqe,
      hqw, goParseUint64_overflow hne hdig hov]

/-- Witness for the amended C8: the 2^64 `active` payload fails with the
`invalid number of connections` range error. -/
theorem extractMetrics_uint64_bound_witness :
    extractMetrics payloadOv "myhost.sensu.local" "3456" 0 =
      .error ("invalid number of connections: " ++
        rangeMsg "18446744073709551616".data) :=
  extractMetrics_uint64_bound.2.1 payloadOv
    "Active connections: 18446744073709551616".data
    "server accepts handled requests".data "1237 89 91".data
    "Reading: 55 Writing: 767 Waiting: 1234".data "myhost.sensu.local"
    "3456" 0 "18446744073709551616".data (by decide) (by decide) (by decide)

/-- C9: `loadData` returns the full body exactly when the HTTP status is
200 (and the body read succeeds); a non-200 status fails with the
numeric status code in the message, a transport failure propagates its
underlying error, and a body-read failure is reported with its
underlying error detail. -/
theorem loadData_status (r : HTTPResponse) (body : List Char) (e : String) :
    (r.body = .ok body → (loadData (.ok r) = .ok body ↔ r.statusCode = 200)) ∧
    (r.statusCode ≠ 200 → loadData (.ok r) =
      .error ("invalid nginx status code: " ++ toString r.statusCode)) ∧
    (loadData (.error e) = .error e) ∧
    (r.statusCode = 200 → r.body = .error e → loadData (.ok r) =
      .error ("error reading body content: " ++ e)) := by
  refine ⟨?_, ?_, rfl, ?_⟩
  · intro hb
    by_cases hs : r.statusCode = 200 <;> simp [loadData, hs, hb]
  · intro hs
    simp [loadData, hs]
  · intro hs hb
    simp [loadData, hs, hb]

/-- Witness for C9: a 200 response returns its body; a 404 fails naming
404; a transport error and a body-read error propagate their detail. -/
theorem loadData_status_witness :
    loadData (.ok ⟨200, .ok payloadA⟩) = .ok payloadA ∧
    loadData (.ok ⟨404, .ok payloadA⟩) =
      .error "invalid nginx status code: 404" ∧
    loadData (.error "dial tcp 127.0.0.1:33333: connect: connection refused") =
      .error "dial tcp 127.0.0.1:33333: connect: connection refused" ∧
    loadData (.ok ⟨200, .error "unexpected EOF"⟩) =
      .error "error reading body content: unexpected EOF" :=
  ⟨((loadData_status ⟨200, .ok payloadA⟩ payloadA "x").1 rfl).mpr rfl,
   ((loadData_status ⟨404, .ok payloadA⟩ payloadA "x").2.1
     (by decide)).trans (by rfl),
   (loadData_status ⟨200, .ok payloadA⟩ payloadA
     "dial tcp 127.0.0.1:33333: connect: connection refused").2.2.1,
   ((loadData_status ⟨200, .error "unexpected EOF"⟩ payloadA
     "unexpected EOF").2.2.2 rfl rfl).trans (by rfl)⟩

/-- `log2fuel` is bounded by the binade of its argument. -/
theorem log2fuel_le (f : Nat) : ∀ n k : Nat, n < 2 ^ (k + 1) →
    log2fuel f n ≤ k := by
  induction f with
  | zero => intro n k _; exact Nat.zero_le k
  | succ f ih =>
    intro n k hn
    unfold log2fuel
    by_cases h2 : 2 ≤ n
    · rw [if_pos h2]
      match k with
      | 0 =>
        rw [pow_one] at hn
        omega
      | k + 1 =>
        have hdiv : n / 2 < 2 ^ (k + 1) := by
          apply (Nat.div_lt_iff_lt_mul (by norm_num)).mpr
          rw [← pow_succ]
          exact hn
        exact Nat.succ_le_succ (ih (n / 2) k hdiv)
    · rw [if_neg h2]; exact Nat.zero_le k

/-- C10: parsed uint64 fields are stored as 64-bit floats: every record
built by `addNewMetric` carries `float64ofUint64` of its parsed value;
the conversion is exact up to `2^53`, while above `2^53` it rounds, so
two distinct parsed values (here `2^53` and `2^53 + 1`) can produce
identical metric records. -/
theorem addNewMetric_float64_semantics :
    (∀ n : Nat, n ≤ 2 ^ 53 → float64ofUint64 n = n) ∧
    ((2 ^ 53 : Nat) ≠ 2 ^ 53 + 1 ∧
      addNewMetric [] "nginx_active" (2 ^ 53) 0 "h" "p" =
        addNewMetric [] "nginx_active" (2 ^ 53 + 1) 0 "h" "p") ∧
    (∀ name v t hostname port fam,
      fam ∈ addNewMetric [] name v t hostname port →
      ∀ m ∈ fam.metric,
        (∀ cv, m.counter = some cv → cv.value = float64ofUint64 v) ∧
        (∀ gv, m.gauge = some gv → gv.value = float64ofUint64 v)) := by
  refine ⟨?_, ⟨by decide, by decide⟩, ?_⟩
  · intro n hn
    rcases Nat.lt_or_ge n (2 ^ 53) with hlt | hge
    · have hl : log2fuel 64 n ≤ 52 := log2fuel_le 64 n 52 hlt
      have hu : ulp64 n = 1 := by
        unfold ulp64
        rw [Nat.sub_eq_zero_of_le hl, pow_zero]
      unfold float64ofUint64
      rw [hu]
      simp [Nat.mod_one]
    · have heq : n = 2 ^ 53 := le_antisymm hn hge
      subst heq
      rfl
  · intro name v t hostname port fam hfam m hm
    simp only [addNewMetric] at hfam
    split at hfam
    · exact absurd hfam (List.not_mem_nil fam)
    · rw [List.nil_append, List.mem_singleton] at hfam
      subst hfam
      split at hm
      · simp only [addNewCounterMetric, List.nil_append,
          List.mem_singleton] at hm
        subst hm
        exact ⟨fun cv hcv => by injection hcv with h'; subst h'; rfl,
          fun gv hgv => Option.noConfusion hgv⟩
      · split at hm
        · simp only [addNewGaugeMetric, List.nil_append,
            List.mem_singleton] at hm
          subst hm
          exact ⟨fun cv hcv => Option.noConfusion hcv,
            fun gv hgv => by injection hgv with h'; subst h'; rfl⟩
        · exact absurd hm (List.not_mem_nil m)

/-- Witness for C10: the conversion is exact at 1234 (scenario A's
largest value). -/
theorem addNewMetric_float64_semantics_witness :
    float64ofUint64 1234 = 1234 :=
  addNewMetric_float64_semantics.1 1234 (by norm_num)

/-- `dropWhile` keeps a list whose head is not white space (vacuously a
list with no white space at all). -/
theorem dropWhile_no_sp {x : List Char} (h : ∀ c ∈ x, goIsSpace c = false) :
    x.dropWhile goIsSpace = x := by
  cases x with
  | nil => rfl
  | cons a as =>
    rw [List.dropWhile_cons_of_neg (by simp [h a (List.mem_cons_self a as)])]

/-- Trimming keeps a line containing no white-space characters. -/
theorem trim_keep {l : List Char} (h : ∀ c ∈ l, goIsSpace c = false) :
    trim l = l := by
  unfold trim trimL
  rw [dropWhile_no_sp (fun c hc => h c (List.mem_reverse.mp hc)),
    List.reverse_reverse, dropWhile_no_sp h]

/-- `splitNL` peels one newline-free line off the front. -/
theorem splitNL_line_append {l : List Char} (rest : List Char)
    (hl : ∀ c ∈ l, c ≠ '\n') :
    splitNL (l ++ '\n' :: rest) = l :: splitNL rest := by
  induction l with
  | nil => simp [splitNL]
  | cons a as ih =>
    rw [List.cons_append]
    simp only [splitNL]
    rw [if_neg (hl a (List.mem_cons_self a as)),
      ih (fun c hc => hl c (List.mem_cons_of_mem a hc))]

/-- `splitNL` of a final newline-free segment. -/
theorem splitNL_no_nl {l : List Char} (hl : ∀ c ∈ l, c ≠ '\n') :
    splitNL l = [l] := by
  induction l with
  | nil => rfl
  | cons a as ih =>
    simp only [splitNL]
    rw [if_neg (hl a (List.mem_cons_self a as)),
      ih (fun c hc => hl c (List.mem_cons_of_mem a hc))]

/-- Counterexample to C6 as stated: prepending 70000 spaces to scenario
A's first line is white-space padding of its lines, yet the padded line
exceeds the scanner's 64 KiB cap, the scan aborts before yielding any
line, and `extractMetrics` fails with `got 0` instead of reproducing
scenario A's success. -/
theorem whitespace_cap_cex :
    List.Forall₂ PaddedLine (splitNL payloadA) (splitNL payloadE) ∧
    extractMetrics payloadE "myhost.sensu.local" "3456" 0 =
      .error "4 output lines are expected, got 0" ∧
    extractMetrics payloadA "myhost.sensu.local" "3456" 0 ≠
      .error "4 output lines are expected, got 0" := by
  have hnl1 : ∀ c ∈ "Active connections: 33".data, c ≠ '\n' := by decide
  have hline : ∀ c ∈ List.replicate 70000 ' ' ++
      "Active connections: 33".data, c ≠ '\n' := by
    intro c hc
    rcases List.mem_append.mp hc with h | h
    · rw [List.eq_of_mem_replicate h]; decide
    · exact hnl1 c h
  have hE : splitNL payloadE =
      (List.replicate 70000 ' ' ++ "Active connections: 33".data) ::
      ["server accepts handled requests".data, "1237 89 91".data,
       "Reading: 55 Writing: 767 Waiting: 1234".data, []] := by
    unfold payloadE
    rw [splitNL_line_append _ hline]
    rfl
  refine ⟨?_, ?_, ?_⟩
  · rw [show splitNL payloadA = ["Active connections: 33".data,
      "server accepts handled requests".data, "1237 89 91".data,
      "Reading: 55 Writing: 767 Waiting: 1234".data, []] from rfl, hE]
    refine List.Forall₂.cons ⟨List.replicate 70000 ' ', [],
      by rw [List.append_nil],
      fun c hc => by rw [List.eq_of_mem_replicate hc]; rfl, by simp⟩ ?_
    refine List.Forall₂.cons ⟨[], [],
      by rw [List.nil_append, List.append_nil], by simp, by simp⟩ ?_
    refine List.Forall₂.cons ⟨[], [],
      by rw [List.nil_append, List.append_nil], by simp, by simp⟩ ?_
    refine List.Forall₂.cons ⟨[], [],
      by rw [List.nil_append, List.append_nil], by simp, by simp⟩ ?_
    exact List.Forall₂.cons ⟨[], [],
      by rw [List.nil_append, List.append_nil], by simp, by simp⟩
      List.Forall₂.nil
  · have hlen : utf8Len (List.replicate 70000 ' ' ++
        "Active connections: 33".data) = 70022 := by
      rw [utf8Len_append, utf8Len_replicate]
      rfl
    have hneg : ¬ (decide (utf8Len (List.replicate 70000 ' ' ++
        "Active connections: 33".data) < MaxScanTokenSize) = true) := by
      rw [hlen]
      decide
    have hscan : scanLines payloadE = [] := by
      unfold scanLines
      rw [hE]
      exact List.takeWhile_cons_of_neg hneg
    unfold extractMetrics nonBlankLines
    rw [hscan]
    rfl
  · intro h
    rw [show extractMetrics payloadA "myhost.sensu.local" "3456" 0 =
        Except.ok (mkFamilies 33 1237 89 91 55 767 1234 0
          "myhost.sensu.local" "3456") from rfl] at h
    exact Except.noConfusion h

/-- Counterexample to C7 as stated: a payload with textually exactly
four non-blank lines, valid lines 1, 3 and 4 and a non-blank second
line of 70000 `x` characters is not accepted: the scanner aborts at the
over-long second line and `extractMetrics` fails with `got 1` instead
of succeeding. -/
theorem line2_cap_cex :
    rawNonBlankLines payloadF =
      ["Active connections: 33".data, List.replicate 70000 'x',
       "1237 89 91".data, "Reading: 55 Writing: 767 Waiting: 1234".data] ∧
    line1Valid "Active connections: 33".data = true ∧
    line3Valid "1237 89 91".data = true ∧
    line4Valid "Reading: 55 Writing: 767 Waiting: 1234".data = true ∧
    extractMetrics payloadF "myhost.sensu.local" "3456" 0 =
      .error "4 output lines are expected, got 1" := by
  have hxnl : ∀ c ∈ List.replicate 70000 'x', c ≠ '\n' := fun c hc => by
    rw [List.eq_of_mem_replicate hc]; decide
  have hF : splitNL payloadF =
      ["Active connections: 33".data, List.replicate 70000 'x',
       "1237 89 91".data, "Reading: 55 Writing: 767 Waiting: 1234".data,
       []] := by
    unfold payloadF
    rw [splitNL_line_append _ (by decide), splitNL_line_append _ hxnl]
    rfl
  refine ⟨?_, by decide, by decide, by decide, ?_⟩
  · have htrimX : trim (List.replicate 70000 'x') =
        List.replicate 70000 'x' :=
      trim_keep (fun c hc => by rw [List.eq_of_mem_replicate hc]; rfl)
    unfold rawNonBlankLines
    rw [hF]
    simp only [List.map_cons, List.map_nil]
    rw [htrimX]
    rw [List.filter_cons_of_pos (by decide), List.filter_cons_of_pos
      (by decide), List.filter_cons_of_pos (by decide),
      List.filter_cons_of_pos (by decide), List.filter_cons_of_neg
      (by decide), List.filter_nil]
    rfl
  · have hlenX : utf8Len (List.replicate 70000 'x') = 70000 := by
      rw [utf8Len_replicate]
      rfl
    have hnegX : ¬ (decide (utf8Len (List.replicate 70000 'x') <
        MaxScanTokenSize) = true) := by
      rw [hlenX]
      decide
    have htailF : List.takeWhile
        (fun l => decide (utf8Len l < MaxScanTokenSize))
        (List.replicate 70000 'x' :: ["1237 89 91".data,
          "Reading: 55 Writing: 767 Waiting: 1234".data, []]) = [] :=
      List.takeWhile_cons_of_neg hnegX
    have hscanF : scanLines payloadF = ["Active connections: 33".data] := by
      unfold scanLines
      rw [hF, List.takeWhile_cons_of_pos (by decide), htailF]
    unfold extractMetrics nonBlankLines
    rw [hscanF]
    rfl

/-- Counterexample to C3 as stated: a payload with textually five
non-blank lines, the fifth being 70000 `a` characters, does not fail
with `got 5`: the scanner aborts at the over-long fifth line after
yielding the four valid ones and `extractMetrics` succeeds with the
full seven records. -/
theorem line_count_cap_cex :
    (rawNonBlankLines payloadG).length = 5 ∧
    extractMetrics payloadG "myhost.sensu.local" "3456" 0 =
      .ok (mkFamilies 33 1237 89 91 55 767 1234 0
        "myhost.sensu.local" "3456") := by
  have hanl : ∀ c ∈ List.replicate 70000 'a', c ≠ '\n' := fun c hc => by
    rw [List.eq_of_mem_replicate hc]; decide
  have hG : splitNL payloadG =
      ["Active connections: 33".data,
       "server accepts handled requests".data, "1237 89 91".data,
       "Reading: 55 Writing: 767 Waiting: 1234".data,
       List.replicate 70000 'a'] := by
    unfold payloadG
    rw [splitNL_line_append _ (by decide), splitNL_line_append _ (by decide),
      splitNL_line_append _ (by decide), splitNL_line_append _ (by decide),
      splitNL_no_nl hanl]
  constructor
  · have htrimA : trim (List.replicate 70000 'a') =
        List.replicate 70000 'a' :=
      trim_keep (fun c hc => by rw [List.eq_of_mem_replicate hc]; rfl)
    unfold rawNonBlankLines
    rw [hG]
    simp only [List.map_cons, List.map_nil]
    rw [htrimA]
    rw [List.filter_cons_of_pos (by decide), List.filter_cons_of_pos
      (by decide), List.filter_cons_of_pos (by decide),
      List.filter_cons_of_pos (by decide), List.filter_cons_of_pos
      (by decide), List.filter_nil]
    rfl
  · have hlenA : utf8Len (List.replicate 70000 'a') = 70000 := by
      rw [utf8Len_replicate]
      rfl
    have hnegA : ¬ (decide (utf8Len (List.replicate 70000 'a') <
        MaxScanTokenSize) = true) := by
      rw [hlenA]
      decide
    have htailG : List.takeWhile
        (fun l => decide (utf8Len l < MaxScanTokenSize))
        [List.replicate 70000 'a'] = [] :=
      List.takeWhile_cons_of_neg hnegA
    have hscanG : scanLines payloadG =
        ["Active connections: 33".data,
         "server accepts handled requests".data, "1237 89 91".data,
         "Reading: 55 Writing: 767 Waiting: 1234".data] := by
      unfold scanLines
      rw [hG, List.takeWhile_cons_of_pos (by decide),
        List.takeWhile_cons_of_pos (by decide),
        List.takeWhile_cons_of_pos (by decide),
        List.takeWhile_cons_of_pos (by decide), htailG]
    unfold extractMetrics nonBlankLines
    rw [hscanG]
    rfl
